import Mathlib

/-!
Verification of the narrative-writer chunking and token-budget pipeline.

The definitions below are a shallow embedding of the repository's Python
sources:
  * `src/processor/chunking.py`   — `ConversationChunker`
  * `src/processor/conversation.py` — `ConversationProcessor.process_conversation`
  * `src/llm/token_counter.py`    — `TokenCounter`
  * `src/llm/provider.py`         — `GeminiProvider.calculate_cost`
  * `src/llm/novelai_provider.py` — `NovelAIProvider.calculate_cost`
  * `narrative_writer.py`         — `get_provider_for_model`, `main`
Machine floats used for prices are embedded as exact rationals; Python ints
as `Nat`.  Fallible paths return explicit error values.
-/

namespace NarrativeWriter

/-- One turn of the source conversation (`prompt`/`response` string fields). -/
structure Exchange where
  prompt : String
  response : String
deriving Repr, DecidableEq, Inhabited

abbrev Conversation := List Exchange

/-! ### Scene-change regular expression

`ConversationChunker.detect_scene_change` matches a fixed alternation of
whole-word cue phrases, case-insensitively, against the next exchange's
`prompt + " " + response`.  We embed exactly the constructs the source
pattern uses: literal characters, alternation, an optional character,
`[^.]*`, and the word-boundary anchor. -/

inductive RE where
  | eps : RE
  | chr : Char → RE
  | seq : RE → RE → RE
  | alt : RE → RE → RE
  | opt : RE → RE
  | starNonDot : RE
  | wb : RE
deriving Repr

/-- Word characters for the ASCII texts in play: letters, digits, underscore. -/
def isWordChar (c : Char) : Bool := c.isAlphanum || c == '_'

/-- Is there a word boundary between the previous character (none at the
start of the text) and the rest of the text? -/
def atBoundary (prev : Option Char) (rest : List Char) : Bool :=
  (match prev with | none => false | some c => isWordChar c) !=
  (match rest with | [] => false | c :: _ => isWordChar c)

/-- All ways `[^.]*` can consume a prefix: returns the character preceding
each possible remainder together with that remainder. -/
def starSplits : Option Char → List Char → List (Option Char × List Char)
  | p, [] => [(p, [])]
  | p, x :: xs =>
    (p, x :: xs) :: (if x = '.' then [] else starSplits (some x) xs)

/-- All ways a regex can match a prefix of `s`, given the character `p`
just before `s` (for word boundaries); pattern characters are stored
lowercase and the text is compared case-insensitively. -/
def REmatch : RE → Option Char → List Char → List (Option Char × List Char)
  | .eps, p, s => [(p, s)]
  | .chr _, _, [] => []
  | .chr c, _, x :: xs => if x.toLower = c then [(some x, xs)] else []
  | .seq a b, p, s => (REmatch a p s).flatMap fun pr => REmatch b pr.1 pr.2
  | .alt a b, p, s => REmatch a p s ++ REmatch b p s
  | .opt a, p, s => (p, s) :: REmatch a p s
  | .starNonDot, p, s => starSplits p s
  | .wb, p, s => if atBoundary p s then [(p, s)] else []

/-- Search as in re.search: does the pattern match starting at some position? -/
def searchFrom (r : RE) : Option Char → List Char → Bool
  | p, [] => !(REmatch r p []).isEmpty
  | p, x :: xs => !(REmatch r p (x :: xs)).isEmpty || searchFrom r (some x) xs

/-- A sequence of literal characters. -/
def lit (s : String) : RE := (s.toList.map RE.chr).foldr RE.seq RE.eps

/-- Alternation over the indicator list, as the source joins them with a bar. -/
def joinAlt : List RE → RE
  | [] => RE.eps
  | [r] => r
  | r :: rest => RE.alt r (joinAlt rest)

/-- The scene-change indicator patterns of `detect_scene_change`, in source
order: `later`, `the next day`, `after [^.]*`, `suddenly`, `meanwhile`,
`elsewhere`, `hours? (later|passed)`, `days? (later|passed)`,
`the following`, `that (evening|morning|afternoon|night)`. -/
def sceneIndicators : List RE :=
  [ lit "later"
  , lit "the next day"
  , RE.seq (lit "after ") RE.starNonDot
  , lit "suddenly"
  , lit "meanwhile"
  , lit "elsewhere"
  , RE.seq (lit "hour") (RE.seq (RE.opt (RE.chr 's'))
      (RE.seq (RE.chr ' ') (RE.alt (lit "later") (lit "passed"))))
  , RE.seq (lit "day") (RE.seq (RE.opt (RE.chr 's'))
      (RE.seq (RE.chr ' ') (RE.alt (lit "later") (lit "passed"))))
  , lit "the following"
  , RE.seq (lit "that ") (RE.alt (lit "evening")
      (RE.alt (lit "morning") (RE.alt (lit "afternoon") (lit "night"))))
  ]

/-- The full pattern: each indicator wrapped in `\b...\b`, alternated. -/
def scenePattern : RE :=
  joinAlt (sceneIndicators.map fun r => RE.seq RE.wb (RE.seq r RE.wb))

/-! ### ConversationChunker (`src/processor/chunking.py`) -/

/-- Chunker configuration, read in `__init__` from
`config['processing']` with defaults `True` and `2`. -/
structure ConversationChunker where
  split_on_scenes : Bool
  context_exchanges : Nat
deriving Repr, DecidableEq

/-- The default configuration (`split_on_scene_changes = True`,
`context_exchanges = 2`). -/
def default_chunker : ConversationChunker :=
  { split_on_scenes := true, context_exchanges := 2 }

/-- Function `detect_scene_change(current, next_exchange)`: searches the
concatenation of the NEXT exchange's prompt and response for a cue;
the `current` argument is ignored by the source. -/
def detect_scene_change (current next_exchange : Exchange) : Bool :=
  let next_text := next_exchange.prompt ++ " " ++ next_exchange.response
  searchFrom scenePattern none next_text.toList

/-- The `for i in range(1, len(conversation))` loop of
`find_chunk_boundaries`, with the trailing final-chunk append. -/
def find_loop (c : ConversationChunker) (conv : Conversation) :
    List Nat → Nat → List (Nat × Nat) → List (Nat × Nat)
  | [], current_start, chunks =>
    if current_start < conv.length then chunks ++ [(current_start, conv.length)]
    else chunks
  | i :: is, current_start, chunks =>
    if c.split_on_scenes && decide (i < conv.length - 1) then
      if detect_scene_change (conv.getD i default) (conv.getD (i + 1) default) then
        find_loop c conv is (i + 1) (chunks ++ [(current_start, i + 1)])
      else
        find_loop c conv is current_start chunks
    else
      find_loop c conv is current_start chunks

/-- Function `find_chunk_boundaries(conversation)`: scans indices `1 .. len-1`. -/
def find_chunk_boundaries (c : ConversationChunker) (conv : Conversation) :
    List (Nat × Nat) :=
  find_loop c conv (List.range' 1 (conv.length - 1)) 0 []

/-- Function `get_context_for_chunk(conversation, start_idx, previous_chunk_end)`:
empty when there is no previous chunk or `start_idx == 0`; otherwise the
slice `conversation[max(previous_chunk_end - context_exchanges, 0) :
previous_chunk_end]` (`Nat` subtraction is the clamped `max(..., 0)`). -/
def get_context_for_chunk (c : ConversationChunker) (conv : Conversation)
    (start_idx : Nat) (previous_chunk_end : Option Nat) : List Exchange :=
  match previous_chunk_end with
  | none => []
  | some pe =>
    if start_idx = 0 then []
    else
      let context_start := pe - c.context_exchanges
      (conv.drop context_start).take (pe - context_start)

/-- A chunk record: its own exchange slice plus carried-forward context. -/
structure Chunk where
  exchanges : List Exchange
  context : List Exchange
deriving Repr, DecidableEq, Inhabited

/-- The loop of `chunk_conversation`, threading `previous_end`. -/
def chunk_loop (c : ConversationChunker) (conv : Conversation) :
    List (Nat × Nat) → Option Nat → List Chunk
  | [], _ => []
  | (s, e) :: rest, previous_end =>
    { exchanges := (conv.drop s).take (e - s),
      context := get_context_for_chunk c conv s previous_end }
      :: chunk_loop c conv rest (some e)

/-- Function `chunk_conversation(conversation)`. -/
def chunk_conversation (c : ConversationChunker) (conv : Conversation) :
    List Chunk :=
  chunk_loop c conv (find_chunk_boundaries c conv) none

/-! ### Provider cost calculation (`src/llm/provider.py`, `src/llm/novelai_provider.py`)

Prices are Python floats in the source; we embed the configured decimal
constants as exact rationals. -/

/-- The dictionary returned by `calculate_cost`: numeric fields plus the
optional `'subscription'` key used as the flat-rate marker. -/
structure CostResult where
  input_cost : ℚ
  output_cost : ℚ
  total_cost : ℚ
  subscription : Option String
deriving Repr, DecidableEq

/-- Gemini pricing shapes: a plain number per side, or a
`{standard, extended}` dictionary per side (`isinstance` check in the
source distinguishes the two). -/
inductive GeminiPricing where
  | flat (input_price output_price : ℚ)
  | tiered (input_standard input_extended output_standard output_extended : ℚ)
deriving Repr, DecidableEq

namespace GeminiProvider

/-- Method `GeminiProvider.calculate_cost(input_tokens, output_tokens)`:
flat configs multiply straight through; tiered configs pick each side's
price by whether that side's count exceeds 128,000, independently. -/
def calculate_cost (p : GeminiPricing) (input_tokens output_tokens : Nat) :
    CostResult :=
  match p with
  | .flat ip op =>
    let input_cost := (input_tokens : ℚ) / 1000000 * ip
    let output_cost := (output_tokens : ℚ) / 1000000 * op
    { input_cost := input_cost, output_cost := output_cost,
      total_cost := input_cost + output_cost, subscription := none }
  | .tiered is ie os oe =>
    let input_price := if input_tokens ≤ 128000 then is else ie
    let output_price := if output_tokens ≤ 128000 then os else oe
    let input_cost := (input_tokens : ℚ) / 1000000 * input_price
    let output_cost := (output_tokens : ℚ) / 1000000 * output_price
    { input_cost := input_cost, output_cost := output_cost,
      total_cost := input_cost + output_cost, subscription := none }

/-- Prices of `MODEL_CONFIGS["gemini-2.0-flash"]` (0.0001, 0.0004). -/
def gemini_2_0_flash_pricing : GeminiPricing :=
  .flat (1 / 10000) (4 / 10000)

/-- Prices of `MODEL_CONFIGS["gemini-1.5-flash"]`
(0.000075 / 0.00015 input, 0.0003 / 0.0006 output). -/
def gemini_1_5_flash_pricing : GeminiPricing :=
  .tiered (75 / 1000000) (15 / 100000) (3 / 10000) (6 / 10000)

/-- Prices of `MODEL_CONFIGS["gemini-1.5-pro"]`
(0.00125 / 0.0025 input, 0.005 / 0.01 output). -/
def gemini_1_5_pro_pricing : GeminiPricing :=
  .tiered (125 / 100000) (25 / 10000) (5 / 1000) (1 / 100)

end GeminiProvider

namespace NovelAIProvider

/-- Method `NovelAIProvider.calculate_cost(input_tokens, output_tokens)`: all
cost fields zero plus the `'subscription'` marker, for every volume. -/
def calculate_cost (input_tokens output_tokens : Nat) : CostResult :=
  { input_cost := 0, output_cost := 0, total_cost := 0,
    subscription := some "$20/month unlimited" }

end NovelAIProvider

/-! ### TokenCounter (`src/llm/token_counter.py`) -/

/-- The mutable counters of `TokenCounter.__init__`. -/
structure TokenCounterState where
  total_input_tokens : Nat
  total_output_tokens : Nat
  total_cost : ℚ
  max_context_used : Nat
  max_context_chunk : Nat
deriving Repr, DecidableEq

/-- The counter state right after `__init__` (all zeros). -/
def token_counter_init : TokenCounterState :=
  { total_input_tokens := 0, total_output_tokens := 0, total_cost := 0,
    max_context_used := 0, max_context_chunk := 0 }

/-- Method `TokenCounter.add_usage(input_tokens, output_tokens)`: increments
cumulative counters; updates the peak record when this chunk's
`input + output` strictly exceeds the stored peak, recording the
cumulative total AFTER the increment; adds the provider's cost only when
its result carries no `'subscription'` key.  `calculate_cost` is the
active provider's cost function. -/
def add_usage (calculate_cost : Nat → Nat → CostResult)
    (st : TokenCounterState) (input_tokens output_tokens : Nat) :
    TokenCounterState :=
  let st1 := { st with
    total_input_tokens := st.total_input_tokens + input_tokens,
    total_output_tokens := st.total_output_tokens + output_tokens }
  let chunk_total := input_tokens + output_tokens
  let st2 :=
    if chunk_total > st1.max_context_used then
      { st1 with
        max_context_used := chunk_total,
        max_context_chunk := st1.total_input_tokens + st1.total_output_tokens }
    else st1
  let costs := calculate_cost input_tokens output_tokens
  if costs.subscription.isNone then
    { st2 with total_cost := st2.total_cost + costs.total_cost }
  else st2

/-- A run's sequence of `add_usage` calls, applied in order. -/
def run_usage (calculate_cost : Nat → Nat → CostResult)
    (st : TokenCounterState) (calls : List (Nat × Nat)) : TokenCounterState :=
  calls.foldl (fun s p => add_usage calculate_cost s p.1 p.2) st

/-- Method `TokenCounter.will_fit_in_context(text)`: the provider token count
compared against `int(max_tokens * 0.8)`; for the exact product this is
`max_tokens * 4 / 5` rounded down, i.e. `Nat` division. -/
def will_fit_in_context (count_tokens : String → Nat) (max_tokens : Nat)
    (text : String) : Bool :=
  decide (count_tokens text ≤ max_tokens * 4 / 5)

/-! ### JSON serialization of the conversation

`process_conversation` measures `json.dumps(conversation)`.  `json.dumps`
is standard-library code, modelled here with Python's default separators
and string escaping for the characters that can occur in our inputs. -/

def json_escape (s : String) : String :=
  String.join (s.toList.map fun ch =>
    if ch = '\\' then "\\\\"
    else if ch = '"' then "\\\""
    else if ch = '\n' then "\\n"
    else if ch = '\t' then "\\t"
    else if ch = '\r' then "\\r"
    else String.singleton ch)

/-- Serialization `json.dumps` of the exchange list, keys in `prompt`, `response`
order. -/
def json_dumps_conversation (conv : Conversation) : String :=
  "[" ++ String.intercalate ", " (conv.map fun e =>
    "\x7b\"prompt\": \"" ++ json_escape e.prompt ++
    "\", \"response\": \"" ++ json_escape e.response ++ "\"\x7d") ++ "]"

/-! ### ConversationProcessor (`src/processor/conversation.py`) -/

/-- The `Character: .../Scene: ...` formatting used for both context and
current exchanges in `_create_narrative_prompt`. -/
def format_exchange (e : Exchange) : String :=
  "Character: " ++ e.prompt ++ "\n" ++ "Scene: " ++ e.response ++ "\n"

/-- Method `ConversationProcessor._create_narrative_prompt`. -/
def create_narrative_prompt (chunk : Chunk)
    (is_first_chunk is_last_chunk : Bool) : String :=
  let context_text :=
    if chunk.context.isEmpty then ""
    else "Previous context:\n" ++
      String.intercalate "\n" (chunk.context.map format_exchange)
  let current_exchanges := chunk.exchanges.map format_exchange
  let start_instruction :=
    if is_first_chunk then "Begin the story naturally"
    else "Continue the narrative seamlessly from the previous section"
  let end_instruction :=
    if is_last_chunk then "Conclude the story appropriately"
    else "Lead naturally into the next section"
  "Convert the following roleplay conversation into a first-person narrative story.\n" ++
  "Maintain the character\x27s perspective, emotions, and voice throughout the narrative.\n\n" ++
  context_text ++ "\n\n" ++
  "Current scene:\n" ++
  String.intercalate "\n" current_exchanges ++ "\n\n" ++
  "Guidelines:\n" ++
  "1. Write in first-person perspective\n" ++
  "2. Show don\x27t tell - use descriptive language\n" ++
  "3. Maintain the emotional depth and character voice\n" ++
  "4. Include all important details from the conversation\n" ++
  "5. Preserve the pacing and tension\n" ++
  "6. " ++ start_instruction ++ "\n" ++
  "7. " ++ end_instruction

/-- Method `ConversationProcessor._get_system_prompt`. -/
def system_prompt_text : String :=
  "You are a skilled narrative writer converting roleplay conversations into engaging first-person stories.\n" ++
  "Your task is to maintain the character\x27s voice and perspective while transforming dialogue and scene descriptions \n" ++
  "into flowing narrative prose. Focus on showing rather than telling, and ensure all important details and emotional \n" ++
  "moments are preserved."

/-- The provider adapter contract the processor relies on: deterministic
token counting, a (successful) generation call, and cost calculation. -/
structure Provider where
  count_tokens : String → Nat
  generate : String → String → String
  calculate_cost : Nat → Nat → CostResult

/-- Python runtime errors the processor can raise past generation. -/
inductive PyError where
  | attributeError (name : String)
  | nameError (name : String)
deriving Repr, DecidableEq

/-- Observable outcome of one `process_conversation` run: the prompts
passed to `generate` in order, whether the Chunker produced the chunk
list, the content written to the output file (if the write is reached),
the aborting runtime error (if any), and the final usage counters. -/
structure ProcResult where
  generate_calls : List String
  chunker_invoked : Bool
  saved : Option String
  error : Option PyError
  counter : TokenCounterState
deriving Repr, DecidableEq

/-- The per-chunk loop of the chunked path: builds each prompt with its
first/last flags, generates, counts, and records usage; returns the
prompts, the accumulated `narrative_parts`, and the final counters. -/
def process_chunks (P : Provider) (n : Nat) :
    List Chunk → Nat → TokenCounterState →
    List String × List String × TokenCounterState
  | [], _, st => ([], [], st)
  | chunk :: rest, i, st =>
    let prompt := create_narrative_prompt chunk (i == 0) (i == n - 1)
    let input_tokens := P.count_tokens prompt
    let narrative_part := P.generate prompt system_prompt_text
    let output_tokens := P.count_tokens narrative_part
    let st1 := add_usage P.calculate_cost st input_tokens output_tokens
    let r := process_chunks P n rest (i + 1) st1
    (prompt :: r.1, narrative_part :: r.2.1, r.2.2)

/-- Method `ConversationProcessor.process_conversation` on an already-loaded
exchange list (file loading and format validation happen before this
logic and are out of scope here).

Single-shot branch: one prompt over the whole conversation, one
`generate`, usage recorded — then the source calls
`self.token_counter.get_cumulative_usage()`, a method `TokenCounter`
does not define, so the run aborts with an `AttributeError` before the
save statement (source line 129).

Chunked branch: the chunk loop runs to completion, but the final
`FileHandler.save_narrative(narrative, output_file)` references the name
`narrative`, which is never bound on this branch (`narrative_parts` is
never joined), so the run aborts with a `NameError` and writes nothing
(source line 186). -/
def process_conversation (P : Provider) (max_tokens : Nat)
    (c : ConversationChunker) (st : TokenCounterState)
    (conversation : Conversation) : ProcResult :=
  if will_fit_in_context P.count_tokens max_tokens
      (json_dumps_conversation conversation) then
    let prompt := create_narrative_prompt
      { exchanges := conversation, context := [] } true true
    let input_tokens := P.count_tokens prompt
    let narrative := P.generate prompt system_prompt_text
    let output_tokens := P.count_tokens narrative
    let st1 := add_usage P.calculate_cost st input_tokens output_tokens
    { generate_calls := [prompt], chunker_invoked := false, saved := none,
      error := some (.attributeError "get_cumulative_usage"), counter := st1 }
  else
    let chunks := chunk_conversation c conversation
    let r := process_chunks P chunks.length chunks 0 st
    { generate_calls := r.1, chunker_invoked := true, saved := none,
      error := some (.nameError "narrative"), counter := r.2.2 }

/-! ### Model selection (`narrative_writer.py`) -/

/-- Function `get_provider_for_model(model, available_models)`: first provider
whose model list contains the identifier, else the `ValueError` the spec
names `UnknownModelError`. -/
def get_provider_for_model (model : String)
    (available_models : List (String × List String)) : Except String String :=
  match available_models with
  | [] => .error ("Model " ++ model ++ " not found in available models")
  | (provider, models) :: rest =>
    if models.contains model then .ok provider
    else get_provider_for_model model rest

/-- Outcome of a `main` run: the exit code and the generation calls
performed. -/
structure RunResult where
  exit_code : Nat
  generate_calls : List String
deriving Repr, DecidableEq

/-- The model-selection slice of `main`: resolve the provider for the
requested model before constructing the processor; a selection failure
is caught by the `ValueError` handler (exit code 1) and processing never
starts. -/
def main_run (P : Provider) (max_tokens : Nat) (c : ConversationChunker)
    (st : TokenCounterState)
    (available_models : List (String × List String)) (model : String)
    (conversation : Conversation) : RunResult :=
  match get_provider_for_model model available_models with
  | .error _ => { exit_code := 1, generate_calls := [] }
  | .ok _ =>
    let r := process_conversation P max_tokens c st conversation
    { exit_code := if r.error.isSome then 1 else 0,
      generate_calls := r.generate_calls }

/-! ### Specification-side predicates -/

/-- Chain predicate `isChain lo hi l`: the intervals in `l` are consecutive, nonempty,
and tile `[lo, hi)` exactly — the spec's "exact, order-preserving
partition" shape. -/
def isChain : Nat → Nat → List (Nat × Nat) → Prop
  | lo, hi, [] => lo = hi
  | lo, hi, (s, e) :: rest => s = lo ∧ lo < e ∧ isChain e hi rest

/-! ### Concrete fixtures for witnesses and counterexamples -/

/-- Exchange with no scene-change cue. -/
def ex0 : Exchange := ⟨"I enter the room.", "It is dark."⟩

/-- Exchange whose combined text contains "the next day". -/
def ex1cue : Exchange := ⟨"The next day I wake up.", "Sunlight fills the room."⟩

/-- Exchange with no scene-change cue. -/
def ex2 : Exchange := ⟨"I stand up.", "The floor creaks."⟩

/-- 3-exchange conversation with the cue at exchange index 1. -/
def conv_cue1 : Conversation := [ex0, ex1cue, ex2]

/-- 3-exchange conversation with the cue at exchange index 2. -/
def conv_cue2 : Conversation := [ex0, ex2, ex1cue]

/-- A 2-exchange conversation saturated with scene cues. -/
def conv_two_cues : Conversation :=
  [⟨"Suddenly a door opens.", "Later that night it rains."⟩,
   ⟨"Meanwhile elsewhere.", "The next day it ends."⟩]

/-- A provider whose token counter is text length, generating fixed
text, billed like NovelAI; used to exercise concrete runs. -/
def demo_provider : Provider :=
  { count_tokens := fun s => s.length,
    generate := fun _ _ => "Generated narrative text.",
    calculate_cost := NovelAIProvider.calculate_cost }

/-! ## Helper lemmas -/

theorem isChain_append (l : List (Nat × Nat)) :
    ∀ lo mid hi, isChain lo mid l → mid < hi →
      isChain lo hi (l ++ [(mid, hi)]) := by
  induction l with
  | nil =>
    intro lo mid hi h hlt
    simp only [isChain] at h
    subst h
    exact ⟨rfl, hlt, rfl⟩
  | cons p rest ih =>
    intro lo mid hi h hlt
    obtain ⟨s, e⟩ := p
    obtain ⟨h1, h2, h3⟩ := h
    exact ⟨h1, h2, ih e mid hi h3 hlt⟩

theorem find_loop_chain (c : ConversationChunker) (conv : Conversation) :
    ∀ (k i0 cs : Nat) (acc : List (Nat × Nat)),
      cs ≤ i0 → cs ≤ conv.length → isChain 0 cs acc →
      isChain 0 conv.length (find_loop c conv (List.range' i0 k) cs acc) := by
  intro k
  induction k with
  | zero =>
    intro i0 cs acc h1 h2 h3
    simp only [List.range', find_loop]
    by_cases h : cs < conv.length
    · simp only [h, if_true]
      exact isChain_append acc 0 cs conv.length h3 h
    · have : cs = conv.length := by omega
      subst this
      simp only [h, if_false]
      exact h3
  | succ k ih =>
    intro i0 cs acc h1 h2 h3
    simp only [List.range', find_loop]
    by_cases hg : (c.split_on_scenes && decide (i0 < conv.length - 1)) = true
    · simp only [hg, if_true]
      by_cases hd : detect_scene_change (conv.getD i0 default)
          (conv.getD (i0 + 1) default) = true
      · simp only [hd, if_true]
        have hlt : i0 < conv.length - 1 := by
          have := (Bool.and_eq_true _ _).mp hg
          exact of_decide_eq_true this.2
        exact ih (i0 + 1) (i0 + 1) (acc ++ [(cs, i0 + 1)]) (le_refl _)
          (by omega)
          (isChain_append acc 0 cs (i0 + 1) h3 (by omega))
      · simp only [Bool.not_eq_true] at hd
        simp only [hd, if_false]
        exact ih (i0 + 1) cs acc (by omega) h2 h3
    · simp only [Bool.not_eq_true] at hg
      simp only [hg, if_false]
      exact ih (i0 + 1) cs acc (by omega) h2 h3

theorem chain_countP_zero (j : Nat) :
    ∀ (l : List (Nat × Nat)) lo hi, isChain lo hi l → j < lo →
      l.countP (fun se => decide (se.1 ≤ j ∧ j < se.2)) = 0 := by
  intro l
  induction l with
  | nil => intro lo hi _ _; rfl
  | cons p rest ih =>
    intro lo hi h hj
    obtain ⟨s, e⟩ := p
    obtain ⟨h1, h2, h3⟩ := h
    rw [List.countP_cons]
    have hhead : ¬(decide ((s, e).1 ≤ j ∧ j < (s, e).2) = true) := by
      simp only [decide_eq_true_eq]
      show ¬(s ≤ j ∧ j < e)
      omega
    rw [if_neg hhead, Nat.add_zero]
    exact ih e hi h3 (by omega)

theorem chain_countP_one (j : Nat) :
    ∀ (l : List (Nat × Nat)) lo hi, isChain lo hi l → lo ≤ j → j < hi →
      l.countP (fun se => decide (se.1 ≤ j ∧ j < se.2)) = 1 := by
  intro l
  induction l with
  | nil =>
    intro lo hi h h1 h2
    simp only [isChain] at h
    omega
  | cons p rest ih =>
    intro lo hi h h1 h2
    obtain ⟨s, e⟩ := p
    obtain ⟨hs, he, h3⟩ := h
    rw [List.countP_cons]
    by_cases hlt : j < e
    · have hhead : decide ((s, e).1 ≤ j ∧ j < (s, e).2) = true := by
        simp only [decide_eq_true_eq]
        show s ≤ j ∧ j < e
        omega
      rw [if_pos hhead, chain_countP_zero j rest e hi h3 hlt]
    · have hhead : ¬(decide ((s, e).1 ≤ j ∧ j < (s, e).2) = true) := by
        simp only [decide_eq_true_eq]
        show ¬(s ≤ j ∧ j < e)
        omega
      rw [if_neg hhead, Nat.add_zero]
      exact ih e hi h3 (by omega) h2

/-! ## Claim C3 -/

/-- Claim C3: for every conversation and configuration, the chunk slices
emitted by `find_chunk_boundaries` are an exact order-preserving
partition of `[0, len)`: they are consecutive nonempty intervals tiling
`[0, conv.length)` (`isChain`), and every index in range lies in exactly
one emitted slice. -/
theorem chunk_boundaries_partition (c : ConversationChunker)
    (conv : Conversation) :
    isChain 0 conv.length (find_chunk_boundaries c conv) ∧
    ∀ k, k < conv.length →
      (find_chunk_boundaries c conv).countP
        (fun se => decide (se.1 ≤ k ∧ k < se.2)) = 1 := by
  have h : isChain 0 conv.length (find_chunk_boundaries c conv) := by
    apply find_loop_chain c conv (conv.length - 1) 1 0 []
    · omega
    · omega
    · rfl
  exact ⟨h, fun k hk => chain_countP_one k _ 0 conv.length h (by omega) hk⟩

/-- Witness for C3 at a concrete chunked conversation: index 2 of
`conv_cue2` lies in exactly one emitted slice. -/
theorem chunk_boundaries_partition_witness :
    (find_chunk_boundaries default_chunker conv_cue2).countP
      (fun se => decide (se.1 ≤ 2 ∧ 2 < se.2)) = 1 :=
  (chunk_boundaries_partition default_chunker conv_cue2).2 2 (by decide)

/-! ## Claim C10 -/

/-- Claim C10: for every conversation with at most two exchanges,
`find_chunk_boundaries` returns the single whole-conversation chunk
`(0, len)` regardless of exchange content and of the
`split_on_scene_changes` setting, and the empty chunk list for the empty
conversation. -/
theorem short_conversation_single_chunk (c : ConversationChunker)
    (conv : Conversation) (h : conv.length ≤ 2) :
    find_chunk_boundaries c conv =
      if conv.length = 0 then [] else [(0, conv.length)] := by
  match conv with
  | [] => rfl
  | [a] => rfl
  | [a, b] =>
    show find_loop c [a, b] (List.range' 1 1) 0 [] = [(0, 2)]
    simp only [List.range', find_loop, List.length_cons, List.length_nil]
    norm_num
  | a :: b :: d :: t => simp at h

/-- Witness for C10: a 2-exchange conversation saturated with scene-cue
phrases still forms a single chunk. -/
theorem short_conversation_single_chunk_witness :
    find_chunk_boundaries default_chunker conv_two_cues = [(0, 2)] := by
  have h := short_conversation_single_chunk default_chunker conv_two_cues
    (by decide)
  simpa using h

/-! ## Claim C2 -/

/-- Counterexample to claim C2: in a 3-exchange conversation whose
exchange index 1 combined text contains "the next day" (witnessed by the
code's own detector firing on that exchange) while no other exchange has
a cue, `find_chunk_boundaries` with scene-splitting enabled returns the
single chunk `[(0, 3)]`, not the claimed `[(0, 2), (2, 3)]`: the scan
tests the text of exchange `i+1`, never exchange 1. -/
theorem scene_cue_exchange1_no_split :
    detect_scene_change ex0 ex1cue = true ∧
    find_chunk_boundaries default_chunker conv_cue1 = [(0, 3)] ∧
    find_chunk_boundaries default_chunker conv_cue1 ≠ [(0, 2), (2, 3)] := by
  refine ⟨by decide, by decide, by decide⟩

/-- On any 3-exchange conversation with the default configuration, the
boundary scan performs exactly one detector test — on the pair at
position 1, reading exchange 2's text — and splits accordingly. -/
theorem find_boundaries_three (x y z : Exchange) :
    find_chunk_boundaries default_chunker [x, y, z] =
      if detect_scene_change y z then [(0, 2), (2, 3)] else [(0, 3)] := by
  show find_loop default_chunker [x, y, z] (List.range' 1 2) 0 [] = _
  have hr : List.range' 1 2 = [1, 2] := by decide
  rw [hr]
  by_cases h : detect_scene_change y z
  · simp only [find_loop, List.length_cons, List.length_nil, List.getD_cons_succ,
      List.getD_cons_zero, h, if_true, default_chunker]
    norm_num
  · simp only [Bool.not_eq_true] at h
    simp only [find_loop, List.length_cons, List.length_nil, List.getD_cons_succ,
      List.getD_cons_zero, h, default_chunker]
    norm_num

/-- Claim C2 as amended: for a 3-exchange conversation in which exchange
index 2 carries the scene-change cue (the detector fires on the pair at
position 1, reading exchange 2's text), `find_chunk_boundaries` returns
`[0,2)` and `[2,3)`, and the second chunk's context (with the default
`context_exchanges = 2`) is exchanges 0 and 1 — in particular it
includes exchange 0. -/
theorem scene_cue_exchange2_splits (a b cue : Exchange)
    (hcue : detect_scene_change b cue = true) :
    find_chunk_boundaries default_chunker [a, b, cue] = [(0, 2), (2, 3)] ∧
    (chunk_conversation default_chunker [a, b, cue]).map Chunk.context =
      [[], [a, b]] ∧
    a ∈ ((chunk_conversation default_chunker [a, b, cue]).getD 1 default).context := by
  have hfind : find_chunk_boundaries default_chunker [a, b, cue] = [(0, 2), (2, 3)] := by
    rw [find_boundaries_three, hcue]
    rfl
  refine ⟨hfind, ?_, ?_⟩
  · show (chunk_loop default_chunker [a, b, cue]
      (find_chunk_boundaries default_chunker [a, b, cue]) none).map Chunk.context = _
    rw [hfind]
    rfl
  · show a ∈ ((chunk_loop default_chunker [a, b, cue]
      (find_chunk_boundaries default_chunker [a, b, cue]) none).getD 1 default).context
    rw [hfind]
    show a ∈ [a, b]
    simp

/-- Witness for the amended C2 at the concrete conversation with the cue
"the next day" in exchange index 2. -/
theorem scene_cue_exchange2_splits_witness :
    find_chunk_boundaries default_chunker [ex0, ex2, ex1cue] = [(0, 2), (2, 3)] ∧
    (chunk_conversation default_chunker [ex0, ex2, ex1cue]).map Chunk.context =
      [[], [ex0, ex2]] ∧
    ex0 ∈ ((chunk_conversation default_chunker [ex0, ex2, ex1cue]).getD 1 default).context :=
  scene_cue_exchange2_splits ex0 ex2 ex1cue (by decide)

/-! ## Claim C5 -/

theorem chunk_loop_length (c : ConversationChunker) (conv : Conversation) :
    ∀ (l : List (Nat × Nat)) (prev : Option Nat),
      (chunk_loop c conv l prev).length = l.length := by
  intro l
  induction l with
  | nil => intro prev; rfl
  | cons b rest ih =>
    intro prev
    obtain ⟨s, e⟩ := b
    simp only [chunk_loop, List.length_cons, ih]

/-- Element `j` of the `chunk_conversation` loop: its context is derived
from the previous chunk's end (the threaded `previous_end` for the head,
the preceding boundary's end otherwise). -/
theorem chunk_loop_getD (c : ConversationChunker) (conv : Conversation) :
    ∀ (l : List (Nat × Nat)) (prev : Option Nat) (j : Nat), j < l.length →
      (chunk_loop c conv l prev).getD j default =
        { exchanges := (conv.drop (l.getD j default).1).take
            ((l.getD j default).2 - (l.getD j default).1),
          context := get_context_for_chunk c conv (l.getD j default).1
            (if j = 0 then prev else some ((l.getD (j - 1) default).2)) } := by
  intro l
  induction l with
  | nil => intro prev j h; simp at h
  | cons b rest ih =>
    intro prev j h
    obtain ⟨s, e⟩ := b
    match j with
    | 0 => rfl
    | j' + 1 =>
      have h' : j' < rest.length := by simpa using h
      have := ih (some e) j' h'
      simp only [chunk_loop, List.getD_cons_succ, this]
      match j' with
      | 0 => rfl
      | k + 1 => rfl

/-- Every element of a chain after the first starts where its
predecessor ends, and that shared boundary is positive. -/
theorem chain_getD_succ (l : List (Nat × Nat)) :
    ∀ lo hi, isChain lo hi l → ∀ j, j + 1 < l.length →
      (l.getD (j + 1) default).1 = (l.getD j default).2 ∧
      0 < (l.getD j default).2 := by
  induction l with
  | nil => intro lo hi _ j hj; simp at hj
  | cons b rest ih =>
    intro lo hi h j hj
    obtain ⟨s, e⟩ := b
    obtain ⟨hs, he, hrest⟩ := h
    match j with
    | 0 =>
      match rest, hrest with
      | (s2, e2) :: r2, ⟨hs2, _, _⟩ =>
        refine ⟨?_, by simp only [List.getD_cons_zero]; omega⟩
        simp only [List.getD_cons_succ, List.getD_cons_zero, hs2]
    | j' + 1 =>
      have := ih e hi hrest j' (by simpa using hj)
      simpa using this

/-- Claim C5: in every `chunk_conversation` output, the first chunk's
context is empty regardless of configuration, and every later chunk's
context is the conversation slice
`[max(previous_chunk_end - context_exchanges, 0), previous_chunk_end)`
where `previous_chunk_end` is the end of the immediately preceding
chunk's boundary (`Nat` subtraction realizes the `max(..., 0)` clamp). -/
theorem chunk_context_derivation (c : ConversationChunker)
    (conv : Conversation) :
    (∀ ch, (chunk_conversation c conv).head? = some ch → ch.context = []) ∧
    (∀ j, j + 1 < (chunk_conversation c conv).length →
      ((chunk_conversation c conv).getD (j + 1) default).context =
        (conv.drop (((find_chunk_boundaries c conv).getD j default).2
            - c.context_exchanges)).take
          (((find_chunk_boundaries c conv).getD j default).2 -
            (((find_chunk_boundaries c conv).getD j default).2
              - c.context_exchanges))) := by
  have hchain : isChain 0 conv.length (find_chunk_boundaries c conv) := by
    apply find_loop_chain c conv (conv.length - 1) 1 0 []
    · omega
    · omega
    · rfl
  constructor
  · intro ch hch
    unfold chunk_conversation at hch
    match hbs : find_chunk_boundaries c conv with
    | [] => rw [hbs] at hch; simp [chunk_loop] at hch
    | (s, e) :: rest =>
      rw [hbs] at hch
      simp only [chunk_loop, List.head?_cons, Option.some_inj] at hch
      rw [← hch]
      rfl
  · intro j hj
    have hlen : (chunk_conversation c conv).length =
        (find_chunk_boundaries c conv).length :=
      chunk_loop_length c conv _ none
    have hj' : j + 1 < (find_chunk_boundaries c conv).length := by
      rw [← hlen]; exact hj
    have hget := chunk_loop_getD c conv (find_chunk_boundaries c conv) none
      (j + 1) hj'
    have hsucc := chain_getD_succ (find_chunk_boundaries c conv) 0
      conv.length hchain j hj'
    unfold chunk_conversation
    rw [hget]
    simp only [Nat.add_sub_cancel]
    have hstart : ((find_chunk_boundaries c conv).getD (j + 1) default).1 =
        ((find_chunk_boundaries c conv).getD j default).2 := hsucc.1
    rw [if_neg (Nat.succ_ne_zero j), hstart]
    have hne : ¬(((find_chunk_boundaries c conv).getD j default).2 = 0) := by
      have := hsucc.2
      omega
    simp only [get_context_for_chunk]
    rw [if_neg hne]

/-- Witness for C5 at the concrete two-chunk conversation `conv_cue2`:
the second chunk's context is the slice `[0, 2)` of the conversation. -/
theorem chunk_context_derivation_witness :
    ((chunk_conversation default_chunker conv_cue2).getD 1 default).context =
      (conv_cue2.drop (((find_chunk_boundaries default_chunker conv_cue2).getD 0
          default).2 - default_chunker.context_exchanges)).take
        (((find_chunk_boundaries default_chunker conv_cue2).getD 0 default).2 -
          (((find_chunk_boundaries default_chunker conv_cue2).getD 0 default).2
            - default_chunker.context_exchanges)) :=
  (chunk_context_derivation default_chunker conv_cue2).2 0 (by decide)

/-! ## Claim C6 -/

/-- Claim C6: for any `add_usage` call (any provider cost function, any
prior state), the recorded peak `max_context_used` changes iff this
call's `input + output` strictly exceeds the previous peak; a tie or
smaller chunk leaves both the peak value and the recorded position
`max_context_chunk` unchanged; and when the peak changes, the recorded
position equals the cumulative input+output total after this call's
counters were incremented. -/
theorem peak_usage_update (calculate_cost : Nat → Nat → CostResult)
    (st : TokenCounterState) (i o : Nat) :
    ((add_usage calculate_cost st i o).max_context_used ≠ st.max_context_used
      ↔ st.max_context_used < i + o) ∧
    (st.max_context_used < i + o →
      (add_usage calculate_cost st i o).max_context_used = i + o ∧
      (add_usage calculate_cost st i o).max_context_chunk =
        (st.total_input_tokens + i) + (st.total_output_tokens + o)) ∧
    (i + o ≤ st.max_context_used →
      (add_usage calculate_cost st i o).max_context_used =
        st.max_context_used ∧
      (add_usage calculate_cost st i o).max_context_chunk =
        st.max_context_chunk) := by
  have h1 : (add_usage calculate_cost st i o).max_context_used =
      if st.max_context_used < i + o then i + o else st.max_context_used := by
    simp only [add_usage]
    by_cases hp : st.max_context_used < i + o <;>
      by_cases hs : (calculate_cost i o).subscription.isNone <;>
        simp [hp, hs, gt_iff_lt]
  have h2 : (add_usage calculate_cost st i o).max_context_chunk =
      if st.max_context_used < i + o then
        (st.total_input_tokens + i) + (st.total_output_tokens + o)
      else st.max_context_chunk := by
    simp only [add_usage]
    by_cases hp : st.max_context_used < i + o <;>
      by_cases hs : (calculate_cost i o).subscription.isNone <;>
        simp [hp, hs, gt_iff_lt]
  rw [h1, h2]
  by_cases hp : st.max_context_used < i + o
  · rw [if_pos hp, if_pos hp]
    exact ⟨⟨fun _ => hp, fun _ => by omega⟩, fun _ => ⟨rfl, rfl⟩,
      fun hle => absurd hp (by omega)⟩
  · rw [if_neg hp, if_neg hp]
    exact ⟨⟨fun hne => absurd rfl hne, fun hlt => absurd hlt hp⟩,
      fun hlt => absurd hlt hp, fun _ => ⟨rfl, rfl⟩⟩

/-- Witness for C6: from the fresh counter, a 5+7-token chunk raises the
peak to 12 recorded at cumulative position 12; a following 12-token tie
leaves both records unchanged. -/
theorem peak_usage_update_witness :
    ((add_usage NovelAIProvider.calculate_cost token_counter_init 5 7).max_context_used = 12 ∧
      (add_usage NovelAIProvider.calculate_cost token_counter_init 5 7).max_context_chunk =
        (0 + 5) + (0 + 7)) ∧
    ((add_usage NovelAIProvider.calculate_cost
        (add_usage NovelAIProvider.calculate_cost token_counter_init 5 7) 6 6).max_context_used =
      (add_usage NovelAIProvider.calculate_cost token_counter_init 5 7).max_context_used ∧
      (add_usage NovelAIProvider.calculate_cost
        (add_usage NovelAIProvider.calculate_cost token_counter_init 5 7) 6 6).max_context_chunk =
      (add_usage NovelAIProvider.calculate_cost token_counter_init 5 7).max_context_chunk) :=
  ⟨(peak_usage_update NovelAIProvider.calculate_cost token_counter_init 5 7).2.1
      (by decide),
   (peak_usage_update NovelAIProvider.calculate_cost
      (add_usage NovelAIProvider.calculate_cost token_counter_init 5 7) 6 6).2.2
      (by decide)⟩

/-! ## Claim C7 -/

/-- Claim C7: tiered `GeminiProvider.calculate_cost` picks each side's
price independently — standard at or below 128,000 tokens, extended
above — returns `side_tokens/1e6 * side_price` per side and their sum as
the total; spelled out exactly at, just below, and just above the
boundary on either side. -/
theorem tiered_cost_boundaries (is ie os oe : ℚ) (i o : Nat) :
    ((GeminiProvider.calculate_cost (.tiered is ie os oe) i o).input_cost =
        (i : ℚ) / 1000000 * (if i ≤ 128000 then is else ie) ∧
      (GeminiProvider.calculate_cost (.tiered is ie os oe) i o).output_cost =
        (o : ℚ) / 1000000 * (if o ≤ 128000 then os else oe) ∧
      (GeminiProvider.calculate_cost (.tiered is ie os oe) i o).total_cost =
        (GeminiProvider.calculate_cost (.tiered is ie os oe) i o).input_cost +
        (GeminiProvider.calculate_cost (.tiered is ie os oe) i o).output_cost) ∧
    ((GeminiProvider.calculate_cost (.tiered is ie os oe) 127999 o).input_cost =
        (127999 : ℚ) / 1000000 * is ∧
      (GeminiProvider.calculate_cost (.tiered is ie os oe) 128000 o).input_cost =
        (128000 : ℚ) / 1000000 * is ∧
      (GeminiProvider.calculate_cost (.tiered is ie os oe) 128001 o).input_cost =
        (128001 : ℚ) / 1000000 * ie) ∧
    ((GeminiProvider.calculate_cost (.tiered is ie os oe) i 127999).output_cost =
        (127999 : ℚ) / 1000000 * os ∧
      (GeminiProvider.calculate_cost (.tiered is ie os oe) i 128000).output_cost =
        (128000 : ℚ) / 1000000 * os ∧
      (GeminiProvider.calculate_cost (.tiered is ie os oe) i 128001).output_cost =
        (128001 : ℚ) / 1000000 * oe) := by
  refine ⟨⟨rfl, rfl, rfl⟩, ⟨?_, ?_, ?_⟩, ⟨?_, ?_, ?_⟩⟩ <;>
    simp [GeminiProvider.calculate_cost]

/-! ## Claim C8 -/

theorem add_usage_subscription_cost (st : TokenCounterState) (i o : Nat) :
    (add_usage NovelAIProvider.calculate_cost st i o).total_cost =
      st.total_cost := by
  simp only [add_usage, NovelAIProvider.calculate_cost, Option.isNone_some,
    Bool.false_eq_true, if_false]
  by_cases hp : st.max_context_used < i + o <;> simp [hp]

theorem add_usage_token_totals (calculate_cost : Nat → Nat → CostResult)
    (st : TokenCounterState) (i o : Nat) :
    (add_usage calculate_cost st i o).total_input_tokens =
      st.total_input_tokens + i ∧
    (add_usage calculate_cost st i o).total_output_tokens =
      st.total_output_tokens + o := by
  simp only [add_usage]
  by_cases hp : st.max_context_used < i + o <;>
    by_cases hs : (calculate_cost i o).subscription.isNone <;>
      simp [hp, hs]

/-- Claim C8: `NovelAIProvider.calculate_cost` reports `total_cost = 0`
(with the subscription marker) at every volume, and across any sequence
of `add_usage` calls against it the tracker's cumulative cost never
moves — pinned at zero from the fresh counter — while the token counters
still accumulate the call-by-call sums. -/
theorem subscription_cost_pinned (calls : List (Nat × Nat))
    (st : TokenCounterState) (i o : Nat) :
    (NovelAIProvider.calculate_cost i o).total_cost = 0 ∧
    (NovelAIProvider.calculate_cost i o).subscription =
      some "$20/month unlimited" ∧
    (run_usage NovelAIProvider.calculate_cost st calls).total_cost =
      st.total_cost ∧
    (run_usage NovelAIProvider.calculate_cost st calls).total_input_tokens =
      st.total_input_tokens + (calls.map Prod.fst).sum ∧
    (run_usage NovelAIProvider.calculate_cost st calls).total_output_tokens =
      st.total_output_tokens + (calls.map Prod.snd).sum ∧
    (run_usage NovelAIProvider.calculate_cost token_counter_init calls).total_cost = 0 := by
  have main : ∀ (cs : List (Nat × Nat)) (s : TokenCounterState),
      (run_usage NovelAIProvider.calculate_cost s cs).total_cost = s.total_cost ∧
      (run_usage NovelAIProvider.calculate_cost s cs).total_input_tokens =
        s.total_input_tokens + (cs.map Prod.fst).sum ∧
      (run_usage NovelAIProvider.calculate_cost s cs).total_output_tokens =
        s.total_output_tokens + (cs.map Prod.snd).sum := by
    intro cs
    induction cs with
    | nil => intro s; simp [run_usage]
    | cons p rest ih =>
      intro s
      obtain ⟨pi, po⟩ := p
      have hstep := ih (add_usage NovelAIProvider.calculate_cost s pi po)
      have htok := add_usage_token_totals NovelAIProvider.calculate_cost s pi po
      have hcost := add_usage_subscription_cost s pi po
      refine ⟨?_, ?_, ?_⟩ <;>
        simp only [run_usage, List.foldl_cons, List.map_cons, List.sum_cons]
          at hstep ⊢
      · rw [hstep.1, hcost]
      · rw [hstep.2.1, htok.1]; omega
      · rw [hstep.2.2, htok.2]; omega
  refine ⟨rfl, rfl, (main calls st).1, (main calls st).2.1, (main calls st).2.2, ?_⟩
  rw [(main calls token_counter_init).1]
  rfl

/-! ## Claim C4 -/

/-- Claim C4: `will_fit_in_context(text)` is true iff the provider's
token count is at most `floor(max_tokens * 0.8)` (stated with the exact
rational `4/5` and the integer floor); and whenever the serialized
conversation satisfies this bound, `process_conversation` takes the
single-shot path: exactly one `generate` call and the Chunker never
invoked. -/
theorem will_fit_and_single_shot (P : Provider) (mt : Nat)
    (c : ConversationChunker) (st : TokenCounterState)
    (conv : Conversation) (text : String) :
    (will_fit_in_context P.count_tokens mt text = true ↔
      ((P.count_tokens text : ℤ) ≤ ⌊(mt : ℚ) * (4 / 5)⌋)) ∧
    (will_fit_in_context P.count_tokens mt (json_dumps_conversation conv) = true →
      (process_conversation P mt c st conv).generate_calls.length = 1 ∧
      (process_conversation P mt c st conv).chunker_invoked = false) := by
  constructor
  · rw [will_fit_in_context, decide_eq_true_eq, Int.le_floor]
    push_cast
    rw [← mul_div_assoc, le_div_iff₀ (by norm_num : (0 : ℚ) < 5),
      Nat.le_div_iff_mul_le (by norm_num : 0 < 5)]
    constructor <;> intro h <;> exact_mod_cast h
  · intro h
    simp only [process_conversation]
    rw [if_pos h]
    exact ⟨rfl, rfl⟩

/-- Witness for C4 at a one-exchange conversation that fits a 1,000,000
token ceiling: one generate call, Chunker untouched. -/
theorem will_fit_and_single_shot_witness :
    (process_conversation demo_provider 1000000 default_chunker
      token_counter_init [ex0]).generate_calls.length = 1 ∧
    (process_conversation demo_provider 1000000 default_chunker
      token_counter_init [ex0]).chunker_invoked = false :=
  (will_fit_and_single_shot demo_provider 1000000 default_chunker
    token_counter_init [ex0] "").2 (by decide)

/-! ## Claim C1 -/

set_option maxRecDepth 100000 in
/-- Claim C1 against the code (code bug): on the chunked path the source
accumulates `narrative_parts` but never joins or saves them — the final
`save_narrative(narrative, ...)` reads a name that is unbound on that
branch, so the run aborts with a `NameError` and the output file is
never written.  Evaluated here at a concrete 3-exchange conversation
that exceeds the 80% budget and splits into two chunks: the Chunker
runs, two generate calls are made, yet nothing is saved. -/
theorem chunked_path_discards_narrative :
    (process_conversation demo_provider 10 default_chunker
      token_counter_init conv_cue2).chunker_invoked = true ∧
    (process_conversation demo_provider 10 default_chunker
      token_counter_init conv_cue2).generate_calls.length = 2 ∧
    (process_conversation demo_provider 10 default_chunker
      token_counter_init conv_cue2).saved = none ∧
    (process_conversation demo_provider 10 default_chunker
      token_counter_init conv_cue2).error = some (.nameError "narrative") :=
  ⟨rfl, rfl, rfl, rfl⟩

/-! ## Claim C9 -/

theorem get_provider_for_model_not_found (model : String) :
    ∀ (ams : List (String × List String)), (∀ pm ∈ ams, model ∉ pm.2) →
      get_provider_for_model model ams =
        Except.error ("Model " ++ model ++ " not found in available models") := by
  intro ams
  induction ams with
  | nil => intro _; rfl
  | cons pm rest ih =>
    intro h
    obtain ⟨prov, models⟩ := pm
    have hnotmem : model ∉ models := h (prov, models) (List.mem_cons_self _ _)
    have hcont : models.contains model = false := by simpa using hnotmem
    simp only [get_provider_for_model, hcont, Bool.false_eq_true, if_false]
    exact ih (fun q hq => h q (List.mem_cons_of_mem _ hq))

/-- Claim C9: a model identifier claimed by no registered backend's
model list makes selection fail with the "Model ... not found" error
(the spec's `UnknownModelError`), the run exits with code 1, and no
generation call is ever attempted. -/
theorem unknown_model_rejected (P : Provider) (mt : Nat)
    (c : ConversationChunker) (st : TokenCounterState)
    (conv : Conversation) (model : String)
    (ams : List (String × List String))
    (h : ∀ pm ∈ ams, model ∉ pm.2) :
    get_provider_for_model model ams =
      Except.error ("Model " ++ model ++ " not found in available models") ∧
    (main_run P mt c st ams model conv).generate_calls = [] ∧
    (main_run P mt c st ams model conv).exit_code = 1 := by
  have hsel := get_provider_for_model_not_found model ams h
  refine ⟨hsel, ?_, ?_⟩ <;> simp only [main_run, hsel]

/-- Witness for C9: the identifier "unknown-model" against a registry
with the OpenAI and NovelAI model lists. -/
theorem unknown_model_rejected_witness :
    get_provider_for_model "unknown-model"
      [("openai", ["gpt-4o", "gpt-4o-mini"]), ("novelai", ["erato", "kayra"])] =
      Except.error "Model unknown-model not found in available models" ∧
    (main_run demo_provider 1000000 default_chunker token_counter_init
      [("openai", ["gpt-4o", "gpt-4o-mini"]), ("novelai", ["erato", "kayra"])]
      "unknown-model" [ex0]).generate_calls = [] ∧
    (main_run demo_provider 1000000 default_chunker token_counter_init
      [("openai", ["gpt-4o", "gpt-4o-mini"]), ("novelai", ["erato", "kayra"])]
      "unknown-model" [ex0]).exit_code = 1 :=
  unknown_model_rejected demo_provider 1000000 default_chunker
    token_counter_init [ex0] "unknown-model"
    [("openai", ["gpt-4o", "gpt-4o-mini"]), ("novelai", ["erato", "kayra"])]
    (by decide)

end NarrativeWriter
